import Mathlib

/-!
# Verification of the flasktrivia backend (src/app.py, src/question_generator.py)

Shallow embedding of the trivia-game backend.  Python dictionaries holding
JSON-decoded request/response data are modelled by the `JVal` type and
association lists; the Flask session is a record of optional fields (a key
that was never set is `none`, and `session.clear()` resets every field to
`none`).  SQLite tables are modelled as association lists / plain lists.
Uncaught Python exceptions (KeyError, IndexError, ValueError, StopIteration,
ZeroDivisionError) are modelled as distinguished error values, kept separate
from the structured JSON errors the routes return deliberately.

Randomness (`random.shuffle`, `random.sample`) is modelled by passing the
result of the random draw as an explicit argument; theorems quantify over all
draws satisfying the property the library guarantees (a permutation of the
input, resp. a sample of the requested size).

Python's `round(x, 1)` on floats is modelled as exact rational rounding to one
decimal place (`round1`); no claim below depends on a float/rational rounding
discrepancy or on a round-half tie.
-/

deriving instance DecidableEq for Except

namespace FlaskTrivia

/-- JSON-like values as produced by Python's `json` module / Flask
`request.json` (top-level objects are modelled directly as association
lists, and no payload relevant to the claims nests an object). -/
inductive JVal where
  | str (s : String)
  | int (n : Int)
  | list (xs : List JVal)
  | null

mutual

def JVal.decEq : (a b : JVal) → Decidable (a = b)
  | .str s, .str t =>
    if h : s = t then isTrue (by rw [h]) else isFalse (by simp [h])
  | .int m, .int n =>
    if h : m = n then isTrue (by rw [h]) else isFalse (by simp [h])
  | .null, .null => isTrue rfl
  | .list xs, .list ys =>
    match JVal.decEqL xs ys with
    | isTrue h => isTrue (by rw [h])
    | isFalse h => isFalse (by simp [h])
  | .str _, .int _ => isFalse fun h => nomatch h
  | .str _, .list _ => isFalse fun h => nomatch h
  | .str _, .null => isFalse fun h => nomatch h
  | .int _, .str _ => isFalse fun h => nomatch h
  | .int _, .list _ => isFalse fun h => nomatch h
  | .int _, .null => isFalse fun h => nomatch h
  | .list _, .str _ => isFalse fun h => nomatch h
  | .list _, .int _ => isFalse fun h => nomatch h
  | .list _, .null => isFalse fun h => nomatch h
  | .null, .str _ => isFalse fun h => nomatch h
  | .null, .int _ => isFalse fun h => nomatch h
  | .null, .list _ => isFalse fun h => nomatch h

def JVal.decEqL : (xs ys : List JVal) → Decidable (xs = ys)
  | [], [] => isTrue rfl
  | [], _ :: _ => isFalse fun h => nomatch h
  | _ :: _, [] => isFalse fun h => nomatch h
  | x :: xs, y :: ys =>
    match JVal.decEq x y, JVal.decEqL xs ys with
    | isTrue h1, isTrue h2 => isTrue (by rw [h1, h2])
    | isFalse h1, _ => isFalse (by simp [h1])
    | _, isFalse h2 => isFalse (by simp [h2])

end

instance : DecidableEq JVal := JVal.decEq

/-- A canonical question record, as loaded from `questions.json`
(`load_questions` normalises `correctAnswer` into `correct` and appends
`funFact` to `explanation`, so a loaded record always has this shape). -/
structure Question where
  id : String
  category : String
  subcategory : String
  difficulty : String
  question : String
  options : List String
  correct : Nat
  explanation : String
  deriving DecidableEq

/-- The dictionary appended to `session['answers']` by `submit_answer`. -/
structure AnswerRecord where
  question : String
  userAnswer : Option JVal
  correct : Bool
  correctAnswer : Nat
  deriving DecidableEq

/-- The Flask session.  Each field is `none` when the corresponding key is
absent from the session dictionary; `session.clear()` yields `{}`. -/
structure Session where
  questions : Option (List Question) := none
  current_index : Option Nat := none
  score : Option Nat := none
  answers : Option (List AnswerRecord) := none
  start_time : Option String := none
  question_generated : Option Bool := none
  game_category : Option String := none
  game_difficulty : Option String := none
  session_id : Option String := none
  deriving DecidableEq

/-- Outcomes of a request: structured JSON errors returned by the routes, and
uncaught Python exceptions (which Flask surfaces as a 500, not a structured
error). -/
inductive Err where
  | noActiveGame        -- jsonify 'No active game', 400
  | noMoreQuestions     -- jsonify 'No more questions', 400
  | noCompletedGame     -- jsonify 'No completed game', 400
  | noMatchingQuestions -- jsonify 'No questions match your criteria', 400
  | playerNameRequired  -- jsonify 'Player name is required', 400
  | playerNameTooLong   -- jsonify 'Player name too long (max 50 characters)', 400
  | keyError            -- uncaught KeyError
  | indexError          -- uncaught IndexError
  | valueError          -- uncaught ValueError
  | stopIteration       -- uncaught StopIteration
  | zeroDivisionError   -- uncaught ZeroDivisionError
  deriving DecidableEq

/-- Whether an outcome is a structured error deliberately returned by the
route (as opposed to an uncaught exception / crash). -/
def Err.structured : Err → Bool
  | .keyError | .indexError | .valueError | .stopIteration | .zeroDivisionError => false
  | _ => true

/-- Python's `str.strip()`: whitespace removed from both ends (structurally
recursive so that concrete instances evaluate). -/
def pyStrip (s : String) : String :=
  ⟨(((s.data.dropWhile Char.isWhitespace).reverse).dropWhile
      Char.isWhitespace).reverse⟩

/-- Python's `str.lower()` (structurally recursive so that concrete
instances evaluate). -/
def pyLower (s : String) : String := ⟨s.data.map Char.toLower⟩

/-- A row of the `question_stats` table. -/
structure QuestionStat where
  times_shown : Nat
  times_correct : Nat
  times_incorrect : Nat
  deriving DecidableEq

/-- The `question_stats` table, keyed by `question_id`. -/
abbrev StatsDB := List (String × QuestionStat)

/-- The freshly inserted row of the upsert: `VALUES (?, 1, c, 1-c)`. -/
def newStat (isCorrect : Bool) : QuestionStat :=
  ⟨1, if isCorrect then 1 else 0, if isCorrect then 0 else 1⟩

/-- The `DO UPDATE` arm of the upsert: `times_shown + 1` and exactly one of
`times_correct`/`times_incorrect` incremented. -/
def bumpStat (isCorrect : Bool) (s : QuestionStat) : QuestionStat :=
  ⟨s.times_shown + 1,
   s.times_correct + (if isCorrect then 1 else 0),
   s.times_incorrect + (if isCorrect then 0 else 1)⟩

/-- The `INSERT ... ON CONFLICT(question_id) DO UPDATE` statement executed by
`submit_answer` (src/app.py lines 297-310): insert a fresh row
`(1, c, 1-c)` when the key is absent, otherwise increment `times_shown` by 1
and exactly one of `times_correct`/`times_incorrect` by 1. -/
def statsUpsert (db : StatsDB) (qid : String) (isCorrect : Bool) : StatsDB :=
  match db.lookup qid with
  | none => (qid, newStat isCorrect) :: db
  | some _ =>
      db.map fun kv =>
        if kv.1 = qid then (kv.1, bumpStat isCorrect kv.2) else kv

/-- Rounding to one decimal place, modelling Python's `round(x, 1)`
(exact rational arithmetic in place of IEEE floats). -/
def round1 (q : ℚ) : ℚ := (round (q * 10) : ℤ) / 10

/-- A row of the `leaderboard` table. -/
structure LBEntry where
  player_name : String
  score : Nat
  total_questions : Nat
  percentage : ℚ
  category : String
  difficulty : String
  timestamp : Nat
  session_id : String := ""
  deriving DecidableEq

/-- A row of the `achievements` table (the `UNIQUE(player_name,
achievement_type, achievement_name)` constraint is enforced by
`tryInsertAchievement`). -/
structure AchRecord where
  player_name : String
  achievement_type : String
  achievement_name : String
  description : String
  deriving DecidableEq

/-- One `INSERT INTO achievements` guarded by `except sqlite3.IntegrityError:
pass`: inserts the row unless the unique triple already exists; reports
whether the insert happened. -/
def tryInsertAchievement (ach : List AchRecord) (rec : AchRecord) :
    List AchRecord × Bool :=
  if ach.any fun a =>
      a.player_name == rec.player_name &&
      a.achievement_type == rec.achievement_type &&
      a.achievement_name == rec.achievement_name
  then (ach, false)
  else (ach ++ [rec], true)

/-- One achievement rule of `check_achievements`: when `cond` holds, attempt
the insert and, if it was new, report the achievement. -/
def achievementStep (player_name : String)
    (st : List AchRecord × List (String × String)) (cond : Bool)
    (ty nm desc : String) : List AchRecord × List (String × String) :=
  if cond then
    let (ach', inserted) := tryInsertAchievement st.1 ⟨player_name, ty, nm, desc⟩
    (ach', if inserted then st.2 ++ [(nm, desc)] else st.2)
  else st

/-- `check_achievements` (src/app.py lines 102-158).  Takes the current
`leaderboard` and `achievements` tables; returns the updated achievements
table and the list of `(name, description)` pairs newly awarded.  The
first-game rule counts the rows of `leaderboard` for `player_name` at the
time this function runs.  (`score` is accepted but unused, as in the
source.) -/
def check_achievements (lb : List LBEntry) (ach : List AchRecord)
    (player_name : String) (score total_questions : Nat) (percentage : ℚ) :
    List AchRecord × List (String × String) :=
  let _ := score
  let st0 : List AchRecord × List (String × String) := (ach, [])
  let st1 := achievementStep player_name st0 (decide (percentage = 100))
    "perfect_score" "Perfect Game" "Scored 100% on a trivia game"
  let st2 := achievementStep player_name st1 (decide (percentage ≥ 90))
    "high_score" "Trivia Master" "Scored 90% or higher on a trivia game"
  let st3 := achievementStep player_name st2 (decide (total_questions ≥ 20))
    "marathon" "Marathon Player" "Completed a game with 20 or more questions"
  let existing_games := (lb.filter fun e => e.player_name == player_name).length
  achievementStep player_name st3 (decide (existing_games = 0))
    "first_game" "Welcome Player" "Completed your first trivia game"

/-- The category/difficulty filtering performed by `start_game`
(src/app.py lines 181-185): case-insensitive exact match, `'all'` meaning no
filter, category filtered first. -/
def filterQuestions (store : List Question) (category difficulty : String) :
    List Question :=
  let avail := store
  let avail := if category ≠ "all"
    then avail.filter fun q => pyLower q.category == pyLower category
    else avail
  if difficulty ≠ "all"
    then avail.filter fun q => pyLower q.difficulty == pyLower difficulty
    else avail

/-- Payload of a successful `/api/start` response. -/
structure StartOut where
  totalQuestions : Nat
  categories : List String
  difficulties : List String
  deriving DecidableEq

/-- `start_game` (src/app.py lines 169-214).  `sample` stands for the value
returned by `random.sample(available_questions, num_questions)`; theorems
quantify over all samples of the computed size.  Note that `session.clear()`
runs before any validation, so the returned session is the cleared one even
on failure.  `random.sample` raises `ValueError` when its size argument is
negative, which the route does not catch. -/
def start_game (store : List Question) (sess : Session) (n : Int)
    (category difficulty : String) (sample : List Question) (now : String) :
    Session × Except Err StartOut :=
  let _ := sess                     -- the pre-existing session is discarded:
  let cleared : Session := {}       -- session.clear()
  let num_questions : Int := min n (store.length : Int)
  let available := filterQuestions store category difficulty
  let num_questions := min num_questions (available.length : Int)
  if num_questions = 0 then
    (cleared, .error .noMatchingQuestions)
  else if num_questions < 0 then
    (cleared, .error .valueError)
  else
    let sess' : Session :=
      { questions := some sample
        current_index := some 0
        score := some 0
        answers := some []
        start_time := some now
        question_generated := some false
        game_category := some category
        game_difficulty := some difficulty }
    (sess', .ok
      { totalQuestions := sample.length
        categories := (store.map (·.category)).dedup
        difficulties := (store.map (·.difficulty)).dedup })

/-- The `globalStats` object of a `/api/question` response. -/
structure GlobalStats where
  timesAnswered : Nat
  accuracy : ℚ
  deriving DecidableEq

/-- Payload of a successful `/api/question` response. -/
structure QView where
  question : String
  options : List String
  questionNumber : Nat
  totalQuestions : Nat
  category : String
  subcategory : String
  difficulty : String
  globalStats : GlobalStats
  deriving DecidableEq

/-- `get_question` (src/app.py lines 216-269).  `shuffled` stands for
`options_with_indices` after `random.shuffle`; in every reachable execution
it is a permutation of `question.options.enum`, and theorems quantify over
all such permutations.  The `questions.get? current_index` match mirrors the
source's `current_index >= len(questions)` guard (the `none` case is exactly
that comparison succeeding).  `next(...)` raises `StopIteration` when no
element of the shuffled list carries the original correct index, mirrored by
the `findIdx?` `none` branch.  The freshly shuffled copy is written back to
`session['questions'][current_index]` before the response is built. -/
def get_question (stats : StatsDB) (sess : Session)
    (shuffled : List (Nat × String)) : Session × Except Err QView :=
  match sess.questions with
  | none => (sess, .error .noActiveGame)
  | some questions =>
    match sess.current_index with
    | none => (sess, .error .keyError)
    | some current_index =>
      match questions[current_index]? with
      | none => (sess, .error .noMoreQuestions)
      | some question =>
        let original_correct := question.correct
        match shuffled.findIdx? fun p => p.1 == original_correct with
        | none => (sess, .error .stopIteration)
        | some newCorrect =>
          let question' : Question :=
            { question with
                options := shuffled.map Prod.snd
                correct := newCorrect }
          let sess' := { sess with
            questions := some (questions.set current_index question') }
          let stat := stats.lookup question.id
          let total_attempts : Nat := match stat with
            | some s => s.times_correct + s.times_incorrect
            | none => 0
          let accuracy : ℚ := match stat with
            | some s =>
              if 0 < s.times_correct + s.times_incorrect
                then (s.times_correct : ℚ) / (total_attempts : ℚ) * 100
                else 0
            | none => 0
          (sess', .ok
            { question := question'.question
              options := question'.options
              questionNumber := current_index + 1
              totalQuestions := questions.length
              category := question'.category
              subcategory := question'.subcategory
              difficulty := question'.difficulty
              globalStats := ⟨total_attempts, round1 accuracy⟩ })

/-- Payload of a successful `/api/answer` response. -/
structure AnswerOut where
  correct : Bool
  correctAnswer : String
  explanation : String
  isLastQuestion : Bool
  deriving DecidableEq

/-- `submit_answer` (src/app.py lines 271-330).  The only guard is
`'questions' in session`; the cursor is not compared with the list length, so
a cursor past the end raises `IndexError` at
`session['questions'][session['current_index']]`.  The submitted value is
`data.get('answer')` — `none` when the key is missing — and is compared with
`==` against the stored (possibly shuffled) snapshot's correct index without
any validation.  Mutation order follows the source: append to
`session['answers']`, increment `session['score']` only when correct, upsert
`question_stats`, advance the cursor, then build the response (whose
`current_question['options'][current_question['correct']]` lookup can raise
`IndexError` only for a malformed snapshot). -/
def submit_answer (stats : StatsDB) (sess : Session) (answer : Option JVal) :
    (Session × StatsDB) × Except Err AnswerOut :=
  match sess.questions with
  | none => ((sess, stats), .error .noActiveGame)
  | some questions =>
    match sess.current_index with
    | none => ((sess, stats), .error .keyError)
    | some current_index =>
      match questions[current_index]? with
      | none => ((sess, stats), .error .indexError)
      | some current_question =>
        let is_correct :=
          decide (answer = some (JVal.int (current_question.correct : Int)))
        match sess.answers with
        | none => ((sess, stats), .error .keyError)
        | some answers =>
          let rec0 : AnswerRecord :=
            ⟨current_question.question, answer, is_correct,
             current_question.correct⟩
          let sess₁ := { sess with answers := some (answers ++ [rec0]) }
          let finish := fun (sess₂ : Session) =>
            let stats' := statsUpsert stats current_question.id is_correct
            let sess₃ := { sess₂ with current_index := some (current_index + 1) }
            let is_last := decide (current_index + 1 ≥ questions.length)
            match current_question.options[current_question.correct]? with
            | none => ((sess₃, stats'), Except.error Err.indexError)
            | some txt =>
              ((sess₃, stats'), Except.ok
                { correct := is_correct
                  correctAnswer := txt
                  explanation := current_question.explanation
                  isLastQuestion := is_last })
          match is_correct, sess.score with
          | true, none => ((sess₁, stats), .error .keyError)
          | true, some sc => finish { sess₁ with score := some (sc + 1) }
          | false, _ => finish sess₁

/-- Payload of a successful `/api/results` response. -/
structure ResultsOut where
  score : Nat
  totalQuestions : Nat
  percentage : ℚ
  answers : List AnswerRecord
  questions : List Question
  category : String
  difficulty : String
  deriving DecidableEq

/-- `get_results` (src/app.py lines 332-349).  The only guard is the presence
of the `questions` and `answers` session keys; an empty answer list passes.
Reading `session['score']` raises `KeyError` when absent, and the division by
`total_questions` raises `ZeroDivisionError` when the stored question list is
empty (neither state is reachable through `start_game`). -/
def get_results (sess : Session) : Except Err ResultsOut :=
  match sess.questions, sess.answers with
  | none, _ => .error .noCompletedGame
  | some _, none => .error .noCompletedGame
  | some questions, some answers =>
    match sess.score with
    | none => .error .keyError
    | some score =>
      if questions.length = 0 then .error .zeroDivisionError
      else
        .ok { score := score
              totalQuestions := questions.length
              percentage := round1 ((score : ℚ) / (questions.length : ℚ) * 100)
              answers := answers
              questions := questions
              category := sess.game_category.getD "all"
              difficulty := sess.game_difficulty.getD "all" }

/-- Payload of a successful `/api/submit-score` response. -/
structure ScoreOut where
  leaderboard_id : Nat
  achievements : List (String × String)
  deriving DecidableEq

/-- `submit_score` (src/app.py lines 351-395).  The leaderboard row is
inserted and committed first; `check_achievements` is called afterwards with
the table that already contains the new row.  `now` stands for the
`CURRENT_TIMESTAMP` default of the insert; `lastrowid` is modelled as the
length of the table after the append. -/
def submit_score (lb : List LBEntry) (ach : List AchRecord) (sess : Session)
    (playerNameRaw : String) (now : Nat) :
    (List LBEntry × List AchRecord) × Except Err ScoreOut :=
  match sess.questions, sess.answers with
  | none, _ => ((lb, ach), .error .noCompletedGame)
  | some _, none => ((lb, ach), .error .noCompletedGame)
  | some questions, some _answers =>
    let player_name := pyStrip playerNameRaw
    if player_name = "" then ((lb, ach), .error .playerNameRequired)
    else if player_name.length > 50 then ((lb, ach), .error .playerNameTooLong)
    else
      match sess.score with
      | none => ((lb, ach), .error .keyError)
      | some score =>
        if questions.length = 0 then ((lb, ach), .error .zeroDivisionError)
        else
          let total_questions := questions.length
          let percentage := round1 ((score : ℚ) / (total_questions : ℚ) * 100)
          let entry : LBEntry :=
            { player_name := player_name
              score := score
              total_questions := total_questions
              percentage := percentage
              category := sess.game_category.getD "all"
              difficulty := sess.game_difficulty.getD "all"
              timestamp := now
              session_id := sess.session_id.getD "" }
          let lb' := lb ++ [entry]
          let (ach', newly) :=
            check_achievements lb' ach player_name score total_questions
              percentage
          ((lb', ach'), .ok { leaderboard_id := lb'.length
                              achievements := newly })

/-- The `ORDER BY percentage DESC, score DESC, total_questions DESC,
timestamp ASC` ordering of `get_leaderboard` as a binary relation:
`lbLe a b` holds when row `a` may appear no later than row `b`. -/
def lbLe (a b : LBEntry) : Prop :=
  b.percentage < a.percentage ∨
    (a.percentage = b.percentage ∧
      (b.score < a.score ∨
        (a.score = b.score ∧
          (b.total_questions < a.total_questions ∨
            (a.total_questions = b.total_questions ∧
              a.timestamp ≤ b.timestamp)))))

instance : DecidableRel lbLe := fun a b => by unfold lbLe; infer_instance

/-- The sort key realising `lbLe` as a lexicographic linear order. -/
def lbKey (e : LBEntry) : ℚ ×ₗ (ℤ ×ₗ (ℤ ×ₗ ℕ)) :=
  toLex (-e.percentage,
    toLex (-(e.score : ℤ), toLex (-(e.total_questions : ℤ), e.timestamp)))

/-- A row of a `/api/leaderboard` response. -/
structure RankedEntry where
  rank : Nat
  playerName : String
  score : Nat
  totalQuestions : Nat
  percentage : ℚ
  category : String
  difficulty : String
  timestamp : Nat
  deriving DecidableEq

/-- `lbLe` transported to response rows. -/
def rankedLe (a b : RankedEntry) : Prop :=
  b.percentage < a.percentage ∨
    (a.percentage = b.percentage ∧
      (b.score < a.score ∨
        (a.score = b.score ∧
          (b.totalQuestions < a.totalQuestions ∨
            (a.totalQuestions = b.totalQuestions ∧
              a.timestamp ≤ b.timestamp)))))

/-- `for i, row in enumerate(results, 1)`: turn the `i`-th (0-based) sorted
row into a response row with 1-based rank. -/
def toRanked (p : Nat × LBEntry) : RankedEntry :=
  ⟨p.1 + 1, p.2.player_name, p.2.score, p.2.total_questions, p.2.percentage,
   p.2.category, p.2.difficulty, p.2.timestamp⟩

/-- `get_leaderboard` (src/app.py lines 397-451): filter by category and
difficulty (exact SQL `=`, `'all'` meaning no filter), sort by the `ORDER BY`
key, apply `LIMIT min(limit, 100)`, then assign 1-based ranks.  The SQL sort
is realised by `List.insertionSort lbLe`, one implementation of the `ORDER
BY` contract (the final `timestamp ASC` key makes the order unique up to rows
equal on all four keys). -/
def get_leaderboard (lb : List LBEntry) (category difficulty : String)
    (limit : Nat) : List RankedEntry :=
  let limit := min limit 100
  let rows := lb
  let rows := if category ≠ "all"
    then rows.filter fun e => e.category == category else rows
  let rows := if difficulty ≠ "all"
    then rows.filter fun e => e.difficulty == difficulty else rows
  (((List.insertionSort lbLe rows).take limit).enum).map toRanked

/-- The required-field list of `validate_question_data`. -/
def required_fields : List String :=
  ["question", "options", "correctAnswer", "explanation"]

/-- `validate_question_data` (src/question_generator.py lines 39-67).  The
checks run in source order: first the presence loop over `required_fields`
(reporting the first missing field), then `options` must be a list of exactly
4 items (their contents are not inspected), then `correctAnswer` must be an
integer in `[0, 3]`, then `question` and `explanation` must be strings that
are non-empty after stripping. -/
def validate_question_data (data : List (String × JVal)) : Bool × String :=
  match required_fields.find? fun f => (data.lookup f).isNone with
  | some f => (false, "Missing required field: " ++ f)
  | none =>
    match data.lookup "options" with
    | some (.list opts) =>
      if opts.length ≠ 4 then
        (false, "Options must be a list of exactly 4 items")
      else
        match data.lookup "correctAnswer" with
        | some (.int n) =>
          if n < 0 ∨ n > 3 then
            (false, "correctAnswer must be an integer between 0 and 3")
          else
            match data.lookup "question" with
            | some (.str q) =>
              if pyStrip q = "" then
                (false, "Question must be a non-empty string")
              else
                match data.lookup "explanation" with
                | some (.str e) =>
                  if pyStrip e = "" then
                    (false, "Explanation must be a non-empty string")
                  else (true, "Valid")
                | _ => (false, "Explanation must be a non-empty string")
            | _ => (false, "Question must be a non-empty string")
        | _ => (false, "correctAnswer must be an integer between 0 and 3")
    | _ => (false, "Options must be a list of exactly 4 items")

/-- `format_question_for_storage` (src/question_generator.py lines 125-146).
`uid` stands for the value of `generate_unique_id()`.  The `getD .null`
defaults are unreachable: the function is only called on validated data, in
which every required key is present. -/
def format_question_for_storage (question_data : List (String × JVal))
    (category : String) (uid : String) : List (String × JVal) :=
  [("id", .str uid),
   ("category", .str (pyLower category)),
   ("subcategory", .str category),
   ("difficulty", .str "medium"),
   ("question", (question_data.lookup "question").getD .null),
   ("options", (question_data.lookup "options").getD .null),
   ("correctAnswer", (question_data.lookup "correctAnswer").getD .null),
   ("explanation", (question_data.lookup "explanation").getD .null),
   ("funFact", (question_data.lookup "funFact").getD (.str ""))]

/-- Errors of the generation pipeline. -/
inductive GenErr where
  | invalidInput (msg : String)   -- ValueError raised for a bad category
  | invalidJson                   -- json.loads failure on the model response
  | invalidFormat (msg : String)  -- validation failure
  deriving DecidableEq

/-- `generate_question` (src/question_generator.py lines 148-184).
`response` stands for the JSON-parsed model output (`none` when
`json.loads` fails), `uid` for `generate_unique_id()`.  On any error the
function raises, so no formatted record is produced and nothing is ever
passed to `save_question` (the `/api/generate-question` route only calls
`save_question` after a successful return). -/
def generate_question (category : String)
    (response : Option (List (String × JVal))) (uid : String) :
    Except GenErr (List (String × JVal)) :=
  if pyStrip category = "" then
    .error (.invalidInput "Category is required")
  else if category.length > 50 then
    .error (.invalidInput "Category name too long (max 50 characters)")
  else
    match response with
    | none => .error .invalidJson
    | some question_data =>
      let v := validate_question_data question_data
      if v.1 then .ok (format_question_for_storage question_data category uid)
      else .error (.invalidFormat ("Invalid question format: " ++ v.2))

/-- The value `num_questions` holds when `start_game` reaches its emptiness
check: the requested count clamped first to the store size, then to the
filtered pool size. -/
def clampedCount (store : List Question) (n : Int)
    (category difficulty : String) : Int :=
  min (min n (store.length : Int))
    ((filterQuestions store category difficulty).length : Int)

/-- The default question built into `load_questions` (src/app.py lines
89-100); used as concrete test data. -/
def defaultQ : Question :=
  { id := "default_001"
    category := "general"
    subcategory := "Geography"
    difficulty := "easy"
    question := "What is the capital of France?"
    options := ["London", "Berlin", "Paris", "Madrid"]
    correct := 2
    explanation := "Paris has been the capital of France since 987 AD." }

/-- The session produced by `start_game` for a one-question game on the
default store (concrete test data). -/
def freshSession : Session :=
  { questions := some [defaultQ]
    current_index := some 0
    score := some 0
    answers := some []
    start_time := some "t"
    question_generated := some false
    game_category := some "all"
    game_difficulty := some "all" }

/-- `freshSession` after the single question was answered correctly: the
cursor has reached the total (concrete test data). -/
def sessionAfterGame : Session :=
  { freshSession with
    current_index := some 1
    score := some 1
    answers := some [⟨defaultQ.question, some (.int 2), true, 2⟩] }

/-! ## Helper lemmas -/

theorem lookup_map_bump (qid : String) (c : Bool) :
    ∀ db : StatsDB,
      (db.map fun kv =>
          if kv.1 = qid then (kv.1, bumpStat c kv.2) else kv).lookup qid
        = (db.lookup qid).map (bumpStat c) := by
  intro db
  induction db with
  | nil => rfl
  | cons kv tl ih =>
    obtain ⟨k0, v0⟩ := kv
    by_cases hk : k0 = qid
    · subst hk
      simp [List.lookup_cons]
    · have h1 : (qid == k0) = false := by simp [Ne.symm hk]
      simp [List.lookup_cons, hk, h1, ih]

theorem lookup_map_bump_ne (qid k : String) (c : Bool) (hk : k ≠ qid) :
    ∀ db : StatsDB,
      (db.map fun kv =>
          if kv.1 = qid then (kv.1, bumpStat c kv.2) else kv).lookup k
        = db.lookup k := by
  intro db
  induction db with
  | nil => rfl
  | cons kv tl ih =>
    obtain ⟨k0, v0⟩ := kv
    by_cases hkv : k0 = qid
    · subst hkv
      have h1 : (k == k0) = false := by simp [hk]
      simp [List.lookup_cons, h1, ih]
    · simp only [List.map_cons, if_neg hkv]
      rw [List.lookup_cons, List.lookup_cons]
      cases k == k0 <;> simp [ih]

theorem statsUpsert_lookup_absent {db : StatsDB} {qid : String} (c : Bool)
    (h : db.lookup qid = none) :
    (statsUpsert db qid c).lookup qid = some (newStat c) := by
  unfold statsUpsert
  simp only [h]
  simp

theorem statsUpsert_lookup_present {db : StatsDB} {qid : String}
    {s : QuestionStat} (c : Bool) (h : db.lookup qid = some s) :
    (statsUpsert db qid c).lookup qid = some (bumpStat c s) := by
  unfold statsUpsert
  simp only [h]
  rw [lookup_map_bump, h]
  rfl

theorem statsUpsert_lookup_ne {db : StatsDB} {qid k : String} (c : Bool)
    (hk : k ≠ qid) :
    (statsUpsert db qid c).lookup k = db.lookup k := by
  unfold statsUpsert
  cases h : db.lookup qid with
  | none =>
    have h1 : (k == qid) = false := by simp [hk]
    simp [List.lookup_cons, h1]
  | some s =>
    simp only []
    exact lookup_map_bump_ne qid k c hk db

/-! ## C7 -/

/-- C7: the statistics upsert executed on each answer submission creates the
`question_stats` row with `times_shown = 1` and exactly one of
`times_correct`/`times_incorrect` equal to 1 when the key is absent, and
otherwise increments `times_shown` by 1 and exactly one of the two outcome
counters by 1; consequently the invariant
`times_shown = times_correct + times_incorrect` is preserved on every row,
and all three counters are monotonically non-decreasing. -/
theorem c7_stats_upsert (db : StatsDB) (qid : String) (c : Bool) :
    (db.lookup qid = none →
      (statsUpsert db qid c).lookup qid =
        some ⟨1, if c then 1 else 0, if c then 0 else 1⟩) ∧
    (∀ s, db.lookup qid = some s →
      (statsUpsert db qid c).lookup qid =
        some ⟨s.times_shown + 1, s.times_correct + (if c then 1 else 0),
              s.times_incorrect + (if c then 0 else 1)⟩) ∧
    ((∀ k s, db.lookup k = some s →
        s.times_shown = s.times_correct + s.times_incorrect) →
      ∀ k s, (statsUpsert db qid c).lookup k = some s →
        s.times_shown = s.times_correct + s.times_incorrect) ∧
    (∀ k s, db.lookup k = some s →
      ∃ s', (statsUpsert db qid c).lookup k = some s' ∧
        s.times_shown ≤ s'.times_shown ∧
        s.times_correct ≤ s'.times_correct ∧
        s.times_incorrect ≤ s'.times_incorrect) := by
  refine ⟨fun h => statsUpsert_lookup_absent c h,
          fun s h => statsUpsert_lookup_present c h, ?_, ?_⟩
  · intro hinv k s hs
    by_cases hk : k = qid
    · subst hk
      cases h : db.lookup k with
      | none =>
        rw [statsUpsert_lookup_absent c h] at hs
        cases hs
        cases c <;> simp [newStat]
      | some s0 =>
        rw [statsUpsert_lookup_present c h] at hs
        cases hs
        have := hinv k s0 h
        cases c <;> simp [bumpStat, this] <;> omega
    · rw [statsUpsert_lookup_ne c hk] at hs
      exact hinv k s hs
  · intro k s hs
    by_cases hk : k = qid
    · subst hk
      refine ⟨bumpStat c s, statsUpsert_lookup_present c hs, ?_, ?_, ?_⟩ <;>
        cases c <;> simp [bumpStat]
    · exact ⟨s, by rw [statsUpsert_lookup_ne c hk]; exact hs,
        le_refl _, le_refl _, le_refl _⟩

/-- C7 witness: concrete instances of the absent and present branches. -/
theorem c7_stats_upsert_witness :
    (statsUpsert [] "default_001" true).lookup "default_001" =
      some ⟨1, 1, 0⟩ ∧
    (statsUpsert [("default_001", ⟨1, 1, 0⟩)] "default_001" false).lookup
        "default_001" = some ⟨2, 1, 1⟩ := by
  constructor
  · exact (c7_stats_upsert [] "default_001" true).1 rfl
  · exact (c7_stats_upsert [("default_001", ⟨1, 1, 0⟩)] "default_001"
      false).2.1 ⟨1, 1, 0⟩ rfl

theorem findIdx_perm_spot {c : Nat} {t : String} :
    ∀ sh : List (Nat × String), (c, t) ∈ sh →
      (∀ p ∈ sh, p.1 = c → p.2 = t) →
      ∃ j, (sh.findIdx? fun p => p.1 == c) = some j ∧
        (sh.map Prod.snd)[j]? = some t := by
  intro sh
  induction sh with
  | nil => intro h; exact absurd h (List.not_mem_nil _)
  | cons p sh ih =>
    intro hmem hall
    by_cases hp : p.1 = c
    · have hpt : p.2 = t := hall p (List.mem_cons_self _ _) hp
      refine ⟨0, ?_, ?_⟩
      · simp [List.findIdx?_cons, hp]
      · simp [hpt]
    · have hmem' : (c, t) ∈ sh := by
        rcases List.mem_cons.1 hmem with h | h
        · exact absurd (by rw [← h]) hp
        · exact h
      obtain ⟨j, hj, hjt⟩ :=
        ih hmem' fun p2 hp2 => hall p2 (List.mem_cons_of_mem _ hp2)
      refine ⟨j + 1, ?_, ?_⟩
      · have hp' : (p.1 == c) = false := by simp [hp]
        simp [List.findIdx?_cons, hp', hj]
      · simpa using hjt

/-- Any random shuffle of `l.enum` places the pair carrying index `c` at a
position `j` found by the source's `next(...)` search, and the shuffled
option list shows `l`'s element `t` at that position. -/
theorem shuffle_spot {l : List String} {c : Nat} {t : String}
    (hct : l[c]? = some t) {sh : List (Nat × String)}
    (hperm : sh.Perm l.enum) :
    ∃ j, (sh.findIdx? fun p => p.1 == c) = some j ∧
      (sh.map Prod.snd)[j]? = some t := by
  apply findIdx_perm_spot
  · exact hperm.mem_iff.2 (List.mem_enum_iff_getElem?.2 (by simpa using hct))
  · intro p hp hpc
    have hpe : p ∈ l.enum := hperm.mem_iff.1 hp
    have hval := List.mem_enum_iff_getElem?.1 hpe
    rw [hpc, hct] at hval
    exact (Option.some_inj.1 hval).symm

/-- Full evaluation of a successful `get_question` call (the global-stats
field is existentially packaged; no claim depends on it). -/
theorem get_question_eq (stats : StatsDB) (sess : Session)
    (questions : List Question) (ci : Nat) (q : Question)
    (shuffled : List (Nat × String)) (j : Nat)
    (hq : sess.questions = some questions)
    (hci : sess.current_index = some ci)
    (hget : questions[ci]? = some q)
    (hfind : (shuffled.findIdx? fun p => p.1 == q.correct) = some j) :
    ∃ gs : GlobalStats,
      get_question stats sess shuffled =
        ({ sess with questions := some (questions.set ci
             { q with options := shuffled.map Prod.snd, correct := j }) },
         Except.ok
           { question := q.question
             options := shuffled.map Prod.snd
             questionNumber := ci + 1
             totalQuestions := questions.length
             category := q.category
             subcategory := q.subcategory
             difficulty := q.difficulty
             globalStats := gs }) := by
  unfold get_question
  simp only [hq, hci, hget, hfind]
  exact ⟨_, rfl⟩

/-- Full evaluation of a `submit_answer` call on a well-keyed session whose
snapshot at the cursor is `q` (with a valid stored correct index). -/
theorem submit_answer_eq (stats : StatsDB) (sess : Session) (v : Option JVal)
    (questions : List Question) (ci sc : Nat) (ans : List AnswerRecord)
    (q : Question) (txt : String)
    (hq : sess.questions = some questions)
    (hci : sess.current_index = some ci)
    (hget : questions[ci]? = some q)
    (hsc : sess.score = some sc)
    (hans : sess.answers = some ans)
    (htxt : q.options[q.correct]? = some txt) :
    submit_answer stats sess v =
      (({ sess with
            answers := some (ans ++
              [⟨q.question, v, decide (v = some (.int (q.correct : Int))),
                q.correct⟩])
            score := some
              (if v = some (.int (q.correct : Int)) then sc + 1 else sc)
            current_index := some (ci + 1) },
        statsUpsert stats q.id (decide (v = some (.int (q.correct : Int))))),
       Except.ok
         { correct := decide (v = some (.int (q.correct : Int)))
           correctAnswer := txt
           explanation := q.explanation
           isLastQuestion := decide (ci + 1 ≥ questions.length) }) := by
  unfold submit_answer
  by_cases hv : v = some (JVal.int (q.correct : Int))
  · have hd : decide (v = some (JVal.int (q.correct : Int))) = true :=
      decide_eq_true hv
    simp only [hq, hci, hget, hans, hsc, hd, htxt, if_pos hv]
  · have hd : decide (v = some (JVal.int (q.correct : Int))) = false := by
      simp [hv]
    simp only [hq, hci, hget, hans, hd, htxt, if_neg hv]
    rw [hsc]

/-! ## C1 -/

/-- C1: for every active session whose stored snapshot at the cursor still
shows the canonical correct option's text `t` at its recorded correct index
(true in particular right after `start_game`, where the snapshot is the
canonical record), one `get_question` call with an arbitrary shuffle
permutation succeeds, the option at the correct index recorded in the
re-stored shuffled snapshot is again `t`, and the invariant is
re-established — so it holds after every independent call, even when the
sampled permutation differs between calls. -/
theorem c1_shuffle_invariant (stats : StatsDB) (sess : Session)
    (questions : List Question) (ci : Nat) (q : Question) (t : String)
    (hq : sess.questions = some questions)
    (hci : sess.current_index = some ci)
    (hget : questions[ci]? = some q)
    (hcorr : q.options[q.correct]? = some t)
    (shuffled : List (Nat × String))
    (hperm : shuffled.Perm q.options.enum) :
    ∃ sess' view q',
      get_question stats sess shuffled = (sess', Except.ok view) ∧
      sess'.questions = some (questions.set ci q') ∧
      (questions.set ci q')[ci]? = some q' ∧
      view.options = q'.options ∧
      view.options[q'.correct]? = some t ∧
      q'.options[q'.correct]? = some t := by
  obtain ⟨j, hj, hjt⟩ := shuffle_spot hcorr hperm
  obtain ⟨gs, hgq⟩ :=
    get_question_eq stats sess questions ci q shuffled j hq hci hget hj
  refine ⟨_, _, { q with options := shuffled.map Prod.snd, correct := j },
    hgq, rfl, ?_, rfl, ?_, ?_⟩
  · have hlt : ci < questions.length := by
      rcases List.getElem?_eq_some_iff.1 hget with ⟨h, _⟩
      exact h
    exact List.getElem?_set_self hlt
  · simpa using hjt
  · simpa using hjt

/-- C1 witness: the default question, a session fresh from `start_game`, and
the reversed enumeration as a concrete non-identity permutation. -/
theorem c1_shuffle_invariant_witness :
    ∃ sess' view q',
      get_question [] freshSession defaultQ.options.enum.reverse =
        (sess', Except.ok view) ∧
      sess'.questions = some ([defaultQ].set 0 q') ∧
      ([defaultQ].set 0 q')[0]? = some q' ∧
      view.options = q'.options ∧
      view.options[q'.correct]? = some "Paris" ∧
      q'.options[q'.correct]? = some "Paris" :=
  c1_shuffle_invariant [] freshSession [defaultQ] 0 defaultQ "Paris"
    rfl rfl rfl rfl defaultQ.options.enum.reverse (List.reverse_perm _)

/-! ## C2 -/

/-- C2: after any `get_question` call (the last of an arbitrary sequence at a
fixed cursor — the starting session state is arbitrary), answer correctness
is judged against the correct index of the snapshot that call stored:
submitting exactly that index yields `correct = true`, and for every
submitted value the reported correctness is equivalent to equality with the
stored shuffled index — the canonical unshuffled index plays no role. -/
theorem c2_answer_checked_against_last_shuffle (stats stats2 : StatsDB)
    (sess : Session) (questions : List Question) (ci sc : Nat)
    (ans : List AnswerRecord) (q : Question) (t : String)
    (hq : sess.questions = some questions)
    (hci : sess.current_index = some ci)
    (hsc : sess.score = some sc)
    (hans : sess.answers = some ans)
    (hget : questions[ci]? = some q)
    (hcorr : q.options[q.correct]? = some t)
    (shuffled : List (Nat × String))
    (hperm : shuffled.Perm q.options.enum) :
    ∃ sess' view q',
      get_question stats sess shuffled = (sess', Except.ok view) ∧
      sess'.questions = some (questions.set ci q') ∧
      (∃ st out,
        submit_answer stats2 sess' (some (.int (q'.correct : Int))) =
          (st, Except.ok out) ∧ out.correct = true) ∧
      (∀ (v : Option JVal) (st : Session × StatsDB) (out : AnswerOut),
        submit_answer stats2 sess' v = (st, Except.ok out) →
        (out.correct = true ↔ v = some (.int (q'.correct : Int)))) := by
  obtain ⟨j, hj, hjt⟩ := shuffle_spot hcorr hperm
  obtain ⟨gs, hgq⟩ :=
    get_question_eq stats sess questions ci q shuffled j hq hci hget hj
  have hlt : ci < questions.length := by
    rcases List.getElem?_eq_some_iff.1 hget with ⟨h, _⟩
    exact h
  have hsub := fun (v : Option JVal) => submit_answer_eq stats2
    { sess with questions := some (questions.set ci
        { q with options := shuffled.map Prod.snd, correct := j }) } v
    (questions.set ci { q with options := shuffled.map Prod.snd, correct := j })
    ci sc ans { q with options := shuffled.map Prod.snd, correct := j } t
    rfl hci (List.getElem?_set_self hlt) hsc hans (by simpa using hjt)
  refine ⟨_, _, { q with options := shuffled.map Prod.snd, correct := j },
    hgq, rfl, ?_, ?_⟩
  · exact ⟨_, _, hsub (some (.int (j : Int))), by simp⟩
  · intro v st out h
    rw [hsub v] at h
    injection h with h1 h2
    injection h2 with h3
    subst h3
    simp

/-- C2 witness: concrete instantiation on the default question with the
reversed enumeration as the shuffle. -/
theorem c2_answer_checked_witness :
    ∃ sess' view q',
      get_question [] freshSession defaultQ.options.enum.reverse =
        (sess', Except.ok view) ∧
      sess'.questions = some ([defaultQ].set 0 q') ∧
      (∃ st out,
        submit_answer [] sess' (some (.int (q'.correct : Int))) =
          (st, Except.ok out) ∧ out.correct = true) ∧
      (∀ (v : Option JVal) (st : Session × StatsDB) (out : AnswerOut),
        submit_answer [] sess' v = (st, Except.ok out) →
        (out.correct = true ↔ v = some (.int (q'.correct : Int)))) :=
  c2_answer_checked_against_last_shuffle [] [] freshSession [defaultQ] 0 0
    [] defaultQ "Paris" rfl rfl rfl rfl rfl rfl
    defaultQ.options.enum.reverse (List.reverse_perm _)

/-! ## C10 -/

/-- C10: in an in-progress session with the cursor below the total,
`submit_answer` accepts any submitted value (including a missing value and
integers outside `[0, 3]`): the call succeeds, reports the answer correct
exactly when the value equals the stored (shuffled) correct index, and on a
mismatch appends an incorrect `AnswerRecord`, leaves the score unchanged,
records an incorrect attempt in the global statistics, and advances the
cursor. -/
theorem c10_submit_any_value (stats : StatsDB) (sess : Session)
    (questions : List Question) (ci sc : Nat) (ans : List AnswerRecord)
    (q : Question) (txt : String) (v : Option JVal)
    (hq : sess.questions = some questions)
    (hci : sess.current_index = some ci)
    (hget : questions[ci]? = some q)
    (hsc : sess.score = some sc)
    (hans : sess.answers = some ans)
    (htxt : q.options[q.correct]? = some txt) :
    ∃ st out, submit_answer stats sess v = (st, Except.ok out) ∧
      (out.correct = true ↔ v = some (.int (q.correct : Int))) ∧
      (v ≠ some (.int (q.correct : Int)) →
        st.1.answers = some (ans ++ [⟨q.question, v, false, q.correct⟩]) ∧
        st.1.score = some sc ∧
        st.1.current_index = some (ci + 1) ∧
        st.2 = statsUpsert stats q.id false ∧
        ∃ s', st.2.lookup q.id = some s' ∧
          s'.times_incorrect =
            (match stats.lookup q.id with
             | some s0 => s0.times_incorrect
             | none => 0) + 1) := by
  rw [submit_answer_eq stats sess v questions ci sc ans q txt
    hq hci hget hsc hans htxt]
  refine ⟨_, _, rfl, by simp, ?_⟩
  intro hv
  have hd : decide (v = some (JVal.int (q.correct : Int))) = false := by
    simp [hv]
  refine ⟨by simp [hd], by simp [hv], rfl, by simp [hd], ?_⟩
  cases hstats : stats.lookup q.id with
  | none =>
    refine ⟨newStat false, ?_, by simp [newStat]⟩
    simp only [hd]
    exact statsUpsert_lookup_absent false hstats
  | some s0 =>
    refine ⟨bumpStat false s0, ?_, by simp [bumpStat]⟩
    simp only [hd]
    exact statsUpsert_lookup_present false hstats

/-- C10 witness: submitting the out-of-range index 7 on a fresh one-question
session. -/
theorem c10_submit_any_value_witness :
    ∃ st out, submit_answer [] freshSession (some (.int 7)) =
        (st, Except.ok out) ∧
      (out.correct = true ↔ some (JVal.int 7) = some (.int ((2 : Nat) : Int))) ∧
      (some (JVal.int 7) ≠ some (.int ((2 : Nat) : Int)) →
        st.1.answers = some ([] ++ [⟨defaultQ.question, some (.int 7), false, 2⟩]) ∧
        st.1.score = some 0 ∧
        st.1.current_index = some (0 + 1) ∧
        st.2 = statsUpsert [] defaultQ.id false ∧
        ∃ s', st.2.lookup defaultQ.id = some s' ∧
          s'.times_incorrect =
            (match ([] : StatsDB).lookup defaultQ.id with
             | some s0 => s0.times_incorrect
             | none => 0) + 1) :=
  c10_submit_any_value [] freshSession [defaultQ] 0 0 [] defaultQ "Paris"
    (some (.int 7)) rfl rfl rfl rfl rfl rfl

theorem filterQuestions_length_le (store : List Question)
    (category difficulty : String) :
    (filterQuestions store category difficulty).length ≤ store.length := by
  unfold filterQuestions
  split_ifs <;>
    first
      | exact le_trans (List.length_filter_le _ _) (List.length_filter_le _ _)
      | exact List.length_filter_le _ _
      | exact le_refl _

theorem start_game_clamped_zero {store : List Question} {sess : Session}
    {n : Int} {category difficulty : String} {sample : List Question}
    {now : String} (h : clampedCount store n category difficulty = 0) :
    start_game store sess n category difficulty sample now =
      ({}, Except.error Err.noMatchingQuestions) := by
  simp only [clampedCount] at h
  simp only [start_game]
  rw [if_pos h]

theorem start_game_clamped_neg {store : List Question} {sess : Session}
    {n : Int} {category difficulty : String} {sample : List Question}
    {now : String} (h : clampedCount store n category difficulty < 0) :
    start_game store sess n category difficulty sample now =
      ({}, Except.error Err.valueError) := by
  simp only [clampedCount] at h
  simp only [start_game]
  rw [if_neg (by omega), if_pos h]

theorem start_game_empty_pool {store : List Question} {sess : Session}
    {n : Int} {category difficulty : String} {sample : List Question}
    {now : String} (h : filterQuestions store category difficulty = [])
    (hn : 0 ≤ n) :
    start_game store sess n category difficulty sample now =
      ({}, Except.error Err.noMatchingQuestions) := by
  simp only [start_game]
  rw [h]
  simp only [List.length_nil, Nat.cast_zero]
  rw [if_pos (by omega)]

theorem start_game_success {store : List Question} {sess : Session}
    {n : Int} {category difficulty : String} {sample : List Question}
    {now : String}
    (hlen : (sample.length : Int) = clampedCount store n category difficulty)
    (h1 : 1 ≤ clampedCount store n category difficulty) :
    start_game store sess n category difficulty sample now =
      ({ questions := some sample
         current_index := some 0
         score := some 0
         answers := some []
         start_time := some now
         question_generated := some false
         game_category := some category
         game_difficulty := some difficulty },
       Except.ok
         { totalQuestions :=
             (min n ((filterQuestions store category difficulty).length : Int)).toNat
           categories := (store.map (·.category)).dedup
           difficulties := (store.map (·.difficulty)).dedup }) := by
  have hple : (filterQuestions store category difficulty).length ≤ store.length :=
    filterQuestions_length_le store category difficulty
  simp only [clampedCount] at hlen h1
  simp only [start_game]
  rw [if_neg (by omega), if_neg (by omega)]
  have h2 : sample.length =
      (min n ((filterQuestions store category difficulty).length : Int)).toNat := by
    omega
  rw [h2]

/-! ## C3 -/

/-- C3: refuted by the code — `submit_score` inserts and commits the
leaderboard row *before* calling `check_achievements`, so for a first-time
player the evaluator's `SELECT COUNT(*)` sees 1, never 0 (the source's own
comment `This will be their first game after insertion` notwithstanding),
and `Welcome Player` is never awarded.  Concretely: a player with an empty
leaderboard submits a perfect 1/1 game; the response lists only
`Perfect Game` and `Trivia Master`, while the evaluator run on the
pre-append table would have awarded `Welcome Player`. -/
theorem c3_welcome_player_not_awarded :
    (submit_score [] [] sessionAfterGame "alice" 7).2 =
      Except.ok
        { leaderboard_id := 1
          achievements :=
            [("Perfect Game", "Scored 100% on a trivia game"),
             ("Trivia Master", "Scored 90% or higher on a trivia game")] } ∧
    "Welcome Player" ∉
      (match (submit_score [] [] sessionAfterGame "alice" 7).2 with
       | Except.ok out => out.achievements.map Prod.fst
       | Except.error _ => []) ∧
    "Welcome Player" ∈ (check_achievements [] [] "alice" 1 1 100).2.map Prod.fst := by
  have hp : round1 (((1 : ℕ) : ℚ) / ((1 : ℕ) : ℚ) * 100) = 100 := by
    rw [round1, round_eq]; norm_num
  have hp100 : round1 (100 : ℚ) = 100 := by
    rw [round1, round_eq]; norm_num
  have hs : pyStrip "alice" = "alice" := by decide
  have h1 : (submit_score [] [] sessionAfterGame "alice" 7).2 =
      Except.ok
        { leaderboard_id := 1
          achievements :=
            [("Perfect Game", "Scored 100% on a trivia game"),
             ("Trivia Master", "Scored 90% or higher on a trivia game")] } := by
    simp only [submit_score, sessionAfterGame, freshSession, defaultQ, hs]
    norm_num [hp, hp100, check_achievements, achievementStep,
      tryInsertAchievement]
    decide
  refine ⟨h1, ?_, ?_⟩
  · rw [h1]
    decide
  · decide

/-! ## C4 -/

/-- C4 counterexample: the filtered pool of the one-question default store is
non-empty, yet `start(numQuestions = 0)` fails — the claim's "otherwise
(non-empty pool) it succeeds with total `min(n, pool size)`" is false at
`n = 0`. -/
theorem c4_counterexample :
    filterQuestions [defaultQ] "all" "all" = [defaultQ] ∧
    (start_game [defaultQ] {} 0 "all" "all" [] "t").2 =
      Except.error Err.noMatchingQuestions := by
  constructor <;> decide

/-- C4 amended: the count is clamped to the store and then to the filtered
pool, and the call succeeds exactly when the clamped count is at least 1, in
which case the session total is `min(n, pool size after case-insensitive
filtering)`; a clamped count of 0 (empty pool, or `n = 0`) fails with
NoMatchingQuestions and creates no session, and a negative `n` escapes the
validation and raises an uncaught ValueError from `random.sample`. -/
theorem c4_amended (store : List Question) (sess : Session) (n : Int)
    (category difficulty : String) (sample : List Question) (now : String) :
    (clampedCount store n category difficulty = 0 →
      start_game store sess n category difficulty sample now =
        ({}, Except.error Err.noMatchingQuestions)) ∧
    (clampedCount store n category difficulty < 0 →
      start_game store sess n category difficulty sample now =
        ({}, Except.error Err.valueError)) ∧
    (filterQuestions store category difficulty = [] → 0 ≤ n →
      start_game store sess n category difficulty sample now =
        ({}, Except.error Err.noMatchingQuestions)) ∧
    ((sample.length : Int) = clampedCount store n category difficulty →
      1 ≤ clampedCount store n category difficulty →
      start_game store sess n category difficulty sample now =
        ({ questions := some sample
           current_index := some 0
           score := some 0
           answers := some []
           start_time := some now
           question_generated := some false
           game_category := some category
           game_difficulty := some difficulty },
         Except.ok
           { totalQuestions :=
               (min n ((filterQuestions store category difficulty).length : Int)).toNat
             categories := (store.map (·.category)).dedup
             difficulties := (store.map (·.difficulty)).dedup })) :=
  ⟨start_game_clamped_zero, start_game_clamped_neg,
   start_game_empty_pool, start_game_success⟩

/-- C4 witness: a successful one-question start and a failing start on an
empty store. -/
theorem c4_amended_witness :
    start_game [defaultQ] {} 1 "all" "all" [defaultQ] "t" =
      ({ questions := some [defaultQ]
         current_index := some 0
         score := some 0
         answers := some []
         start_time := some "t"
         question_generated := some false
         game_category := some "all"
         game_difficulty := some "all" },
       Except.ok
         { totalQuestions :=
             (min 1 ((filterQuestions [defaultQ] "all" "all").length : Int)).toNat
           categories := ([defaultQ].map (·.category)).dedup
           difficulties := ([defaultQ].map (·.difficulty)).dedup }) ∧
    start_game [] {} 5 "all" "all" [] "t" =
      ({}, Except.error Err.noMatchingQuestions) :=
  ⟨(c4_amended [defaultQ] {} 1 "all" "all" [defaultQ] "t").2.2.2
      (by decide) (by decide),
   (c4_amended [] {} 5 "all" "all" [] "t").2.2.1 rfl (by decide)⟩

/-! ## C5 -/

/-- C5 counterexample: in a session whose cursor has reached the total (one
question, already answered), `submit_answer` raises an uncaught IndexError —
it neither returns the structured NoActiveGame error the claim requires nor
any structured error at all (though the state is left unmodified here). -/
theorem c5_counterexample :
    (submit_answer [] sessionAfterGame (some (.int 0))).2 =
      Except.error Err.indexError ∧
    Err.indexError ≠ Err.noActiveGame ∧
    Err.structured Err.indexError = false ∧
    (submit_answer [] sessionAfterGame (some (.int 0))).1 =
      (sessionAfterGame, []) := by
  refine ⟨?_, ?_, ?_, ?_⟩ <;> decide

/-- C5 amended: `submit_answer` with no session fails with the structured
NoActiveGame error and leaves all state unmodified; `submit_answer` with
cursor ≥ total raises an uncaught IndexError (a crash, not a structured
error), also leaving state unmodified; and a failed start over an empty
filtered pool returns a structured error but has already cleared the
pre-existing session, which is therefore destroyed rather than preserved. -/
theorem c5_amended :
    (∀ (stats : StatsDB) (sess : Session) (v : Option JVal),
      sess.questions = none →
      submit_answer stats sess v =
          ((sess, stats), Except.error Err.noActiveGame) ∧
        Err.structured Err.noActiveGame = true) ∧
    (∀ (stats : StatsDB) (sess : Session) (v : Option JVal)
        (qs : List Question) (ci : Nat),
      sess.questions = some qs → sess.current_index = some ci →
      qs.length ≤ ci →
      submit_answer stats sess v =
          ((sess, stats), Except.error Err.indexError) ∧
        Err.structured Err.indexError = false) ∧
    (∀ (store : List Question) (sess : Session) (n : Int)
        (category difficulty : String) (sample : List Question) (now : String),
      filterQuestions store category difficulty = [] → 0 ≤ n →
      start_game store sess n category difficulty sample now =
        ({}, Except.error Err.noMatchingQuestions)) := by
  refine ⟨?_, ?_, ?_⟩
  · intro stats sess v h
    constructor
    · unfold submit_answer
      simp only [h]
    · rfl
  · intro stats sess v qs ci hq hci hle
    have hnone : qs[ci]? = none := List.getElem?_eq_none hle
    constructor
    · unfold submit_answer
      simp only [hq, hci, hnone]
    · rfl
  · intro store sess n category difficulty sample now h hn
    exact start_game_empty_pool h hn

/-- C5 witness: the three branches at concrete inputs. -/
theorem c5_amended_witness :
    (submit_answer [] {} none = (({}, []), Except.error Err.noActiveGame) ∧
      Err.structured Err.noActiveGame = true) ∧
    (submit_answer [] sessionAfterGame none =
        ((sessionAfterGame, []), Except.error Err.indexError) ∧
      Err.structured Err.indexError = false) ∧
    start_game [defaultQ] freshSession 3 "history" "all" [] "t" =
      ({}, Except.error Err.noMatchingQuestions) :=
  ⟨c5_amended.1 [] {} none rfl,
   c5_amended.2.1 [] sessionAfterGame none [defaultQ] 1 rfl rfl (by decide),
   c5_amended.2.2 [defaultQ] freshSession 3 "history" "all" [] "t"
     (by decide) (by decide)⟩

/-! ## C6 -/

/-- C6 counterexample: a freshly started game has an empty answer list, yet
`results()` succeeds (score 0, percentage 0.0) instead of failing with
NoCompletedGame — the guard only checks that the `questions` and `answers`
keys exist. -/
theorem c6_counterexample :
    freshSession.answers = some [] ∧
    get_results freshSession =
      Except.ok
        { score := 0
          totalQuestions := 1
          percentage := 0
          answers := []
          questions := [defaultQ]
          category := "all"
          difficulty := "all" } := by
  refine ⟨by decide, ?_⟩
  have hp0 : round1 (0 : ℚ) = 0 := by
    rw [round1, round_eq]; norm_num
  simp only [get_results, freshSession, defaultQ]
  norm_num [hp0]

/-- C6 amended: `results()` fails with NoCompletedGame exactly when the
`questions` or `answers` session key is absent; whenever both keys are
present (with a score and a non-empty question list, as `start_game`
guarantees) it succeeds even when no answer has been submitted yet, a
freshly started game yielding score 0 rather than an error. -/
theorem c6_amended :
    (∀ sess : Session, (sess.questions = none ∨ sess.answers = none) →
      get_results sess = Except.error Err.noCompletedGame) ∧
    (∀ (sess : Session) (qs : List Question) (ans : List AnswerRecord)
        (sc : Nat),
      sess.questions = some qs → sess.answers = some ans →
      sess.score = some sc → qs ≠ [] →
      get_results sess = Except.ok
        { score := sc
          totalQuestions := qs.length
          percentage := round1 ((sc : ℚ) / (qs.length : ℚ) * 100)
          answers := ans
          questions := qs
          category := sess.game_category.getD "all"
          difficulty := sess.game_difficulty.getD "all" }) := by
  constructor
  · intro sess h
    unfold get_results
    rcases h with h | h
    · simp only [h]
    · cases hq : sess.questions with
      | none => simp only [hq]
      | some qs => simp only [hq, h]
  · intro sess qs ans sc hq hans hsc hne
    unfold get_results
    simp only [hq, hans, hsc]
    rw [if_neg (by simpa using hne)]

/-- C6 witness: the empty session fails, a fresh unanswered game succeeds. -/
theorem c6_amended_witness :
    get_results {} = Except.error Err.noCompletedGame ∧
    get_results freshSession = Except.ok
      { score := 0
        totalQuestions := [defaultQ].length
        percentage := round1 (((0 : Nat) : ℚ) / (([defaultQ].length : Nat) : ℚ) * 100)
        answers := []
        questions := [defaultQ]
        category := freshSession.game_category.getD "all"
        difficulty := freshSession.game_difficulty.getD "all" } :=
  ⟨c6_amended.1 {} (Or.inl rfl),
   c6_amended.2 freshSession [defaultQ] [] 0 rfl rfl rfl (by decide)⟩

/-! ## C9 -/

/-- A generated candidate whose first option is the empty string (all other
requirements satisfied). -/
def c9BadCandidate : List (String × JVal) :=
  [("question", .str "q"),
   ("options", .list [.str "", .str "a", .str "b", .str "c"]),
   ("correctAnswer", .int 0),
   ("explanation", .str "e")]

/-- C9 counterexample: a candidate with an empty option string passes
`validate_question_data` and flows through `generate_question` into the
stored format — option contents are never inspected, so such a candidate is
not rejected with InvalidQuestionFormat as the claim requires. -/
theorem c9_counterexample :
    c9BadCandidate.lookup "options" =
      some (.list [.str "", .str "a", .str "b", .str "c"]) ∧
    validate_question_data c9BadCandidate = (true, "Valid") ∧
    generate_question "Science" (some c9BadCandidate) "generated_1_1" =
      Except.ok
        (format_question_for_storage c9BadCandidate "Science"
          "generated_1_1") := by
  refine ⟨?_, ?_, ?_⟩ <;> decide

/-- C9 amended: validation requires the four required fields present,
`options` a list of exactly 4 items (their contents — emptiness or even
being strings — are not checked), `correctAnswer` an integer in `[0, 3]`,
and `question`/`explanation` non-empty strings after trimming; any candidate
violating these checks (e.g. one with only 3 options) is rejected, and
`generate_question` turns the rejection into an InvalidQuestionFormat error
naming the invalid field, so the candidate never reaches the store. -/
theorem c9_amended :
    (∀ (data : List (String × JVal)) (qs es : String) (opts : List JVal)
        (n : Int),
      data.lookup "question" = some (.str qs) → pyStrip qs ≠ "" →
      data.lookup "options" = some (.list opts) → opts.length = 4 →
      data.lookup "correctAnswer" = some (.int n) → 0 ≤ n → n ≤ 3 →
      data.lookup "explanation" = some (.str es) → pyStrip es ≠ "" →
      validate_question_data data = (true, "Valid")) ∧
    (∀ (data : List (String × JVal)) (opts : List JVal),
      data.lookup "options" = some (.list opts) → opts.length ≠ 4 →
      (validate_question_data data).1 = false) ∧
    (∀ (category : String) (data : List (String × JVal)) (uid : String),
      (validate_question_data data).1 = false →
      pyStrip category ≠ "" → category.length ≤ 50 →
      generate_question category (some data) uid =
        Except.error (.invalidFormat
          ("Invalid question format: " ++ (validate_question_data data).2))) := by
  refine ⟨?_, ?_, ?_⟩
  · intro data qs es opts n hq hqs hopts hlen hca hn0 hn3 hex hes
    unfold validate_question_data
    have hfind : (required_fields.find? fun f => (data.lookup f).isNone)
        = none := by
      simp [required_fields, List.find?, hq, hopts, hca, hex]
    simp only [hfind, hopts]
    rw [if_neg (by omega : ¬opts.length ≠ 4)]
    simp only [hca]
    rw [if_neg (by omega : ¬(n < 0 ∨ n > 3))]
    simp only [hq]
    rw [if_neg hqs]
    simp only [hex]
    rw [if_neg hes]
  · intro data opts hopts hlen
    unfold validate_question_data
    cases hfind : (required_fields.find? fun f => (data.lookup f).isNone) with
    | some f => simp only [hfind]
    | none =>
      simp only [hfind, hopts]
      rw [if_pos hlen]
  · intro category data uid hval hcat hlen50
    unfold generate_question
    rw [if_neg hcat, if_neg (by omega : ¬category.length > 50)]
    simp only [hval]
    rfl

/-- A valid generated candidate (concrete test data). -/
def c9GoodCandidate : List (String × JVal) :=
  [("question", .str "Which planet is known as the Red Planet?"),
   ("options", .list [.str "Mars", .str "Venus", .str "Jupiter",
      .str "Mercury"]),
   ("correctAnswer", .int 0),
   ("explanation", .str "Mars appears red due to iron oxide.")]

/-- A candidate with only 3 options (concrete test data). -/
def c9ThreeOptionCandidate : List (String × JVal) :=
  [("question", .str "q"),
   ("options", .list [.str "a", .str "b", .str "c"]),
   ("correctAnswer", .int 0),
   ("explanation", .str "e")]

/-- C9 witness: a valid candidate passes, a 3-option candidate is rejected
and surfaces as an InvalidQuestionFormat error from `generate_question`. -/
theorem c9_amended_witness :
    validate_question_data c9GoodCandidate = (true, "Valid") ∧
    (validate_question_data c9ThreeOptionCandidate).1 = false ∧
    generate_question "History" (some c9ThreeOptionCandidate) "generated_2_2" =
      Except.error (.invalidFormat
        ("Invalid question format: " ++
          (validate_question_data c9ThreeOptionCandidate).2)) :=
  ⟨c9_amended.1 c9GoodCandidate "Which planet is known as the Red Planet?"
      "Mars appears red due to iron oxide."
      [.str "Mars", .str "Venus", .str "Jupiter", .str "Mercury"] 0
      rfl (by decide) rfl (by decide) rfl (by decide) (by decide) rfl
      (by decide),
   c9_amended.2.1 c9ThreeOptionCandidate [.str "a", .str "b", .str "c"]
      rfl (by decide),
   c9_amended.2.2 "History" c9ThreeOptionCandidate "generated_2_2"
      (by decide) (by decide) (by decide)⟩

/-! ## C8 -/

theorem lbLe_iff_key (a b : LBEntry) : lbLe a b ↔ lbKey a ≤ lbKey b := by
  simp [lbLe, lbKey, Prod.Lex.le_iff, neg_lt_neg_iff, neg_inj]

instance : IsTrans LBEntry lbLe :=
  ⟨fun a b c h1 h2 => (lbLe_iff_key a c).2
    (le_trans ((lbLe_iff_key a b).1 h1) ((lbLe_iff_key b c).1 h2))⟩

instance : IsTotal LBEntry lbLe :=
  ⟨fun a b => (le_total (lbKey a) (lbKey b)).imp
    (lbLe_iff_key a b).2 (lbLe_iff_key b a).2⟩

theorem lbLe_toRanked {i j : Nat} {a b : LBEntry} (h : lbLe a b) :
    rankedLe (toRanked (i, a)) (toRanked (j, b)) := by
  simpa [rankedLe, toRanked, lbLe] using h

theorem pairwise_rankedLe_enumFrom_map :
    ∀ (l : List LBEntry) (n : Nat), l.Pairwise lbLe →
      ((l.enumFrom n).map toRanked).Pairwise rankedLe := by
  intro l
  induction l with
  | nil => intro n _; simp
  | cons a l ih =>
    intro n h
    rcases List.pairwise_cons.1 h with ⟨h1, h2⟩
    rw [List.enumFrom_cons, List.map_cons]
    refine List.Pairwise.cons ?_ (ih (n + 1) h2)
    intro y hy
    rcases List.mem_map.1 hy with ⟨⟨i, b⟩, hmem, rfl⟩
    have hb : b ∈ l := by
      have := (List.mk_mem_enumFrom_iff_le_and_getElem?_sub.1 hmem).2
      exact List.getElem?_mem this
    exact lbLe_toRanked (h1 b hb)

theorem map_rank_enumFrom_toRanked :
    ∀ (l : List LBEntry) (n : Nat),
      ((l.enumFrom n).map toRanked).map (·.rank) =
        List.range' (n + 1) l.length := by
  intro l
  induction l with
  | nil => intro n; simp
  | cons a l ih =>
    intro n
    rw [List.enumFrom_cons, List.map_cons, List.map_cons, List.length_cons,
      List.range'_succ]
    simp only [toRanked, ih (n + 1)]

/-- C8: `get_leaderboard` returns a sequence sorted by percentage
descending, then score descending, then total questions descending, then
earliest timestamp first; rank numbers are the 1-based positions in that
ordering (assigned after filtering), the length respects the limit cap of
100, and the spec's concrete example ranks P3, P2, P1. -/
theorem c8_leaderboard_order :
    (∀ (lb : List LBEntry) (category difficulty : String) (limit : Nat),
      (get_leaderboard lb category difficulty limit).Pairwise rankedLe ∧
      (get_leaderboard lb category difficulty limit).map (·.rank) =
        List.range' 1 (get_leaderboard lb category difficulty limit).length ∧
      (get_leaderboard lb category difficulty limit).length ≤
        min limit 100) ∧
    (get_leaderboard
        [⟨"P1", 8, 10, 80, "all", "all", 5, ""⟩,
         ⟨"P2", 9, 11, 80, "all", "all", 1, ""⟩,
         ⟨"P3", 9, 10, 90, "all", "all", 3, ""⟩] "all" "all" 10).map
      (fun r => (r.rank, r.playerName)) = [(1, "P3"), (2, "P2"), (3, "P1")] := by
  constructor
  · intro lb category difficulty limit
    refine ⟨?_, ?_, ?_⟩
    · simp only [get_leaderboard]
      rw [List.enum_eq_enumFrom]
      apply pairwise_rankedLe_enumFrom_map
      exact List.Pairwise.sublist (List.take_sublist _ _)
        (List.sorted_insertionSort lbLe _)
    · simp only [get_leaderboard]
      rw [List.enum_eq_enumFrom, map_rank_enumFrom_toRanked]
      congr 1
      simp
    · simp only [get_leaderboard, List.length_map, List.enum_length,
        List.length_take]
      omega
  · decide

end FlaskTrivia
